import Mathlib

/-!
Shallow embedding of the college-management backend (main.py, schemas.py).

The document store is modelled as explicit lists per collection; every
endpoint handler becomes a pure function on that state.  Stateful handlers
return a pair of the HTTP-level result and the post-state; an error result
is always paired with the unchanged pre-state, mirroring the source where
each exception is raised before any write.  Timestamps are a Nat clock
value passed per call; generated identifiers are passed in explicitly.
-/

namespace CollegeApi

/-- HTTPException from the source: a status code and a detail string. -/
structure HTTPError where
  status : Nat
  detail : String
deriving Repr, DecidableEq

deriving instance DecidableEq for Except

/-- A stored admission document, fields as written by the handlers. -/
structure AdmissionDoc where
  oid : String
  full_name : String
  email : String
  phone : String
  address : String
  program : String
  dob : String
  previous_education : Option String
  status : String
  created_at : Nat
  updated_at : Nat
deriving Repr, DecidableEq

/-- A stored student document, fields exactly as accept_admission inserts them. -/
structure StudentDoc where
  oid : String
  full_name : String
  email : String
  program : String
  roll_no : Option String
  year : Nat
  is_active : Bool
  created_at : Nat
  updated_at : Nat
deriving Repr, DecidableEq

/-- A stored attendance document, fields exactly as mark_attendance writes them. -/
structure AttendanceDoc where
  student_id : String
  date : String
  status : String
  note : Option String
  created_at : Nat
  updated_at : Nat
deriving Repr, DecidableEq

/-- A stored admin user document, the fields login reads. -/
structure AdminUserDoc where
  oid : String
  name : String
  email : String
  password : String
  role : String
  is_active : Bool
deriving Repr, DecidableEq

/-- The document store: one list per collection used by the handlers. -/
structure DB where
  admissions : List AdmissionDoc
  students : List StudentDoc
  attendance : List AttendanceDoc
  adminusers : List AdminUserDoc
deriving Repr, DecidableEq

def isHexChar (c : Char) : Bool :=
  (decide ('0' ≤ c) && decide (c ≤ '9')) ||
  (decide ('a' ≤ c) && decide (c ≤ 'f')) ||
  (decide ('A' ≤ c) && decide (c ≤ 'F'))

def canonHexChar (c : Char) : Char :=
  if c == 'A' then 'a' else if c == 'B' then 'b' else if c == 'C' then 'c'
  else if c == 'D' then 'd' else if c == 'E' then 'e' else if c == 'F' then 'f' else c

/-- Lowercasing of a hexadecimal string, the canonical form of an ObjectId. -/
def canonObjectId (s : String) : String := String.mk (s.data.map canonHexChar)

/-- Model of bson ObjectId construction from a string: it succeeds exactly on
24-character hexadecimal strings and canonicalizes to lowercase; the handlers
compare the parsed id against stored ids, which are in canonical form. -/
def parseObjectId (s : String) : Option String :=
  if s.length = 24 && s.data.all isHexChar then some (canonObjectId s) else none

/-- Model of the update_one store operation applied to a list: rewrite the
first document matching the predicate, leave everything else unchanged. -/
def updateFirst (p : α → Bool) (f : α → α) : List α → List α
  | [] => []
  | x :: xs => if p x then f x :: xs else x :: updateFirst p f xs

/-- Modelled from the spec: get_documents of the database module (absent from
src) performs filtered retrieval, returning the documents of a collection that
match the filter exactly. -/
def get_documents (filt : α → Bool) (coll : List α) : List α :=
  coll.filter filt

/-- Request body of submit_admission: the Admission pydantic model of
schemas.py.  Its status field is caller-suppliable with default pending. -/
structure AdmissionInput where
  full_name : String
  email : String
  phone : String
  address : String
  program : String
  dob : String
  previous_education : Option String
  status : String
deriving Repr, DecidableEq

/-- The Literal constraint on Admission.status in schemas.py. -/
def AdmissionInput.validStatus (a : AdmissionInput) : Bool :=
  a.status == "pending" || a.status == "accepted" || a.status == "rejected"

/-- The Literal constraint on Attendance.status in schemas.py. -/
def attendanceStatusValid (s : String) : Bool :=
  s == "present" || s == "absent" || s == "late"

/-- Modelled from the spec: create_document of the database module (absent
from src) inserts the validated document into the named collection with a
generated identifier and creation timestamps and returns the identifier. -/
def create_document (db : DB) (a : AdmissionInput) (now : Nat) (newId : String) :
    DB × String :=
  ({ db with admissions := db.admissions ++
      [⟨newId, a.full_name, a.email, a.phone, a.address, a.program, a.dob,
        a.previous_education, a.status, now, now⟩] }, newId)

/-- POST /api/admissions.  The storeFail argument models the try/except around
the store call: some e is the store raising an exception whose text is e. -/
def submit_admission (db : DB) (a : AdmissionInput) (now : Nat) (newId : String)
    (storeFail : Option String) : Except HTTPError String × DB :=
  match storeFail with
  | some e => (.error ⟨503, e⟩, db)
  | none =>
    let r := create_document db a now newId
    (.ok r.2, r.1)

/-- GET /api/admissions.  A status value that is falsy in Python (absent or
the empty string) yields the empty filter. -/
def list_admissions (db : DB) (status : Option String) (storeFail : Option String) :
    Except HTTPError (List AdmissionDoc) :=
  match storeFail with
  | some e => .error ⟨503, e⟩
  | none =>
    match status with
    | none => .ok (get_documents (fun _ => true) db.admissions)
    | some s =>
      if s == "" then .ok (get_documents (fun _ => true) db.admissions)
      else .ok (get_documents (fun a => a.status == s) db.admissions)

/-- POST /api/admissions/(admission_id)/accept. -/
def accept_admission (db : DB) (admission_id : String) (now : Nat) (newSid : String) :
    Except HTTPError String × DB :=
  match parseObjectId admission_id with
  | none => (.error ⟨400, "Invalid admission id"⟩, db)
  | some oid =>
    match db.admissions.find? (fun a => a.oid == oid) with
    | none => (.error ⟨404, "Admission not found"⟩, db)
    | some adm =>
      let student : StudentDoc :=
        ⟨newSid, adm.full_name, adm.email, adm.program, none, 1, true, now, now⟩
      let adms := updateFirst (fun a => a.oid == oid)
        (fun a => { a with status := "accepted", updated_at := now }) db.admissions
      (.ok newSid, { db with students := db.students ++ [student], admissions := adms })

/-- The upsert key of mark_attendance: exact match on student_id and date. -/
def sameAttendanceKey (sid d : String) (a : AttendanceDoc) : Bool :=
  a.student_id == sid && a.date == d

/-- POST /api/attendance: update_one with upsert on the (student_id, date)
key; on a match the set fields are rewritten and created_at kept, on no match
a fresh document carrying the key, the set fields and created_at is inserted. -/
def mark_attendance (db : DB) (student_id : String) (date : String) (status : String)
    (note : Option String) (now : Nat) : Except HTTPError Unit × DB :=
  match parseObjectId student_id with
  | none => (.error ⟨400, "Invalid student id"⟩, db)
  | some sid =>
    match db.students.find? (fun s => s.oid == sid) with
    | none => (.error ⟨404, "Student not found"⟩, db)
    | some _ =>
      if db.attendance.any (sameAttendanceKey sid date) then
        let att := updateFirst (sameAttendanceKey sid date)
          (fun a => { a with status := status, note := note, updated_at := now })
          db.attendance
        (.ok (), { db with attendance := att })
      else
        (.ok (), { db with attendance := db.attendance ++ [⟨sid, date, status, note, now, now⟩] })

/-- Truthiness of an optional query parameter: Python treats both None and
the empty string as false. -/
def optTruthy : Option String → Bool
  | none => false
  | some s => s != ""

/-- GET /api/attendance: each query parameter contributes an exact-match
filter clause only when truthy. -/
def get_attendance (db : DB) (student_id on_date : Option String)
    (storeFail : Option String) : Except HTTPError (List AttendanceDoc) :=
  match storeFail with
  | some e => .error ⟨503, e⟩
  | none =>
    .ok (get_documents (fun a =>
      (if optTruthy student_id then a.student_id == student_id.getD "" else true) &&
      (if optTruthy on_date then a.date == on_date.getD "" else true)) db.attendance)

/-- The successful login payload: id, name, email, role of the found user. -/
structure LoginUser where
  id : String
  name : String
  email : String
  role : String
deriving Repr, DecidableEq

/-- The find_one filter of login: exact email and password match on an
active user. -/
def adminMatch (email password : String) (u : AdminUserDoc) : Bool :=
  u.email == email && u.password == password && u.is_active

/-- POST /api/auth/login. -/
def login (db : DB) (email password : String) : Except HTTPError LoginUser :=
  match db.adminusers.find? (adminMatch email password) with
  | none => .error ⟨401, "Invalid credentials"⟩
  | some u => .ok ⟨u.oid, u.name, u.email, u.role⟩

/-- The per-pair uniqueness invariant on the attendance collection: no
document is followed by another with the same (student_id, date) key. -/
def uniqueKeys : List AttendanceDoc → Bool
  | [] => true
  | a :: l => !(l.any (sameAttendanceKey a.student_id a.date)) && uniqueKeys l

/-- One record operation: the arguments of a single mark_attendance call. -/
structure MarkOp where
  student_id : String
  date : String
  status : String
  note : Option String
  now : Nat
deriving Repr, DecidableEq

/-- Run a sequence of record operations, threading the store state. -/
def runMarks (db : DB) : List MarkOp → DB
  | [] => db
  | op :: ops =>
    runMarks (mark_attendance db op.student_id op.date op.status op.note op.now).2 ops

/-! Concrete fixtures used to evaluate the model on closed inputs. -/

/-- A stored pending admission with a canonical ObjectId. -/
def admW : AdmissionDoc :=
  ⟨"aaaaaaaaaaaaaaaaaaaaaaaa", "Jane Doe", "jane@example.com", "555-0100", "1 Main St",
   "Engineering", "2000-01-01", none, "pending", 0, 0⟩

/-- A store holding exactly the one pending admission. -/
def dbAdmW : DB := ⟨[admW], [], [], []⟩

/-- A stored student with a canonical ObjectId. -/
def studentW : StudentDoc :=
  ⟨"cccccccccccccccccccccccc", "Jane Doe", "jane@example.com", "Engineering", none, 1, true, 0, 0⟩

/-- A store holding exactly the one student. -/
def dbStuW : DB := ⟨[], [studentW], [], []⟩

/-- The seeded default admin user, active. -/
def adminW : AdminUserDoc :=
  ⟨"dddddddddddddddddddddddd", "Default Admin", "admin@college.edu", "admin123", "admin", true⟩

/-- A store holding exactly the active default admin. -/
def dbAuthW : DB := ⟨[], [], [], [adminW]⟩

/-- A store whose only admin matches the default credentials but is inactive. -/
def dbAuthInactiveW : DB :=
  ⟨[], [], [], [⟨"dddddddddddddddddddddddd", "Default Admin", "admin@college.edu", "admin123",
    "admin", false⟩]⟩

/-- A structurally valid admission application whose caller-supplied status is
rejected rather than the default pending. -/
def rejectedInput : AdmissionInput :=
  ⟨"Jane Doe", "jane@example.com", "555-0100", "1 Main St", "Engineering", "2000-01-01",
   none, "rejected"⟩

/-- A structurally valid admission application with the default pending status. -/
def pendingInput : AdmissionInput :=
  ⟨"John Roe", "john@example.com", "555-0101", "2 Main St", "Psychology", "1999-05-05",
   none, "pending"⟩

/-- A representative raw store-exception text, longer than the 80-character
truncation the diagnostic endpoint applies. -/
def rawStoreError : String :=
  "ServerSelectionTimeoutError: localhost:27017: [Errno 111] Connection refused, Timeout: 30s, Topology Description: single server Unknown"

/-! Helper lemmas about the store-operation models. -/

theorem find?_updateFirst {α} (p : α → Bool) (f : α → α) (l : List α) (a : α)
    (h : l.find? p = some a) (hf : p (f a) = true) :
    (updateFirst p f l).find? p = some (f a) := by
  induction l with
  | nil => simp [List.find?] at h
  | cons x xs ih =>
    by_cases hx : p x = true
    · rw [List.find?_cons_of_pos _ hx] at h
      cases h
      simp [updateFirst, hx, List.find?_cons_of_pos _ hf]
    · have hx' : p x = false := Bool.eq_false_iff.mpr hx
      rw [List.find?_cons_of_neg _ hx] at h
      simp only [updateFirst, hx', if_false, Bool.false_eq_true]
      rw [List.find?_cons_of_neg _ hx]
      exact ih h

theorem length_updateFirst {α} (p : α → Bool) (f : α → α) (l : List α) :
    (updateFirst p f l).length = l.length := by
  induction l with
  | nil => rfl
  | cons x xs ih =>
    by_cases hx : p x = true
    · simp [updateFirst, hx]
    · simp [updateFirst, Bool.eq_false_iff.mpr hx, ih]

theorem updateFirst_append_singleton {α} (p : α → Bool) (f : α → α) (l : List α) (x : α)
    (hl : l.any p = false) (hx : p x = true) :
    updateFirst p f (l ++ [x]) = l ++ [f x] := by
  induction l with
  | nil => simp [updateFirst, hx]
  | cons y ys ih =>
    simp only [List.any_cons, Bool.or_eq_false_iff] at hl
    simp [updateFirst, hl.1, ih hl.2]

theorem filter_nil_of_no_match {α} (p : α → Bool) (l : List α) (h : l.any p = false) :
    l.filter p = [] := by
  induction l with
  | nil => rfl
  | cons y ys ih =>
    simp only [List.any_cons, Bool.or_eq_false_iff] at h
    simp [List.filter, h.1, ih h.2]

theorem sameAttendanceKey_mk (sid d st : String) (n : Option String) (c u : Nat) :
    sameAttendanceKey sid d ⟨sid, d, st, n, c, u⟩ = true := by
  simp [sameAttendanceKey]

/-- The attendance update function of mark_attendance leaves the upsert key
fields of a document unchanged. -/
theorem attendanceSet_preserves_key (st : String) (n : Option String) (now : Nat)
    (a : AttendanceDoc) :
    ({ a with status := st, note := n, updated_at := now } : AttendanceDoc).student_id
        = a.student_id ∧
    ({ a with status := st, note := n, updated_at := now } : AttendanceDoc).date = a.date :=
  ⟨rfl, rfl⟩

theorem any_sameKey_updateFirst (s d : String) (p : AttendanceDoc → Bool)
    (f : AttendanceDoc → AttendanceDoc)
    (hf : ∀ a, (f a).student_id = a.student_id ∧ (f a).date = a.date)
    (l : List AttendanceDoc) :
    (updateFirst p f l).any (sameAttendanceKey s d) = l.any (sameAttendanceKey s d) := by
  induction l with
  | nil => rfl
  | cons x xs ih =>
    by_cases hx : p x = true
    · simp [updateFirst, hx, sameAttendanceKey, (hf x).1, (hf x).2]
    · have hx' : p x = false := Bool.eq_false_iff.mpr hx
      simp [updateFirst, hx', ih]

theorem uniqueKeys_updateFirst (p : AttendanceDoc → Bool) (f : AttendanceDoc → AttendanceDoc)
    (hf : ∀ a, (f a).student_id = a.student_id ∧ (f a).date = a.date)
    (l : List AttendanceDoc) (h : uniqueKeys l = true) :
    uniqueKeys (updateFirst p f l) = true := by
  induction l with
  | nil => rfl
  | cons x xs ih =>
    simp only [uniqueKeys, Bool.and_eq_true, Bool.not_eq_true', Bool.not_eq_true] at h
    by_cases hx : p x = true
    · simp only [updateFirst, hx, if_true, uniqueKeys, Bool.and_eq_true, Bool.not_eq_true']
      exact ⟨by rw [(hf x).1, (hf x).2]; exact h.1, h.2⟩
    · have hx' : p x = false := Bool.eq_false_iff.mpr hx
      simp only [updateFirst, hx', Bool.false_eq_true, if_false, uniqueKeys,
        Bool.and_eq_true, Bool.not_eq_true']
      exact ⟨by rw [any_sameKey_updateFirst _ _ _ _ hf]; exact h.1, ih h.2⟩

theorem uniqueKeys_append_singleton (l : List AttendanceDoc) (x : AttendanceDoc)
    (h : uniqueKeys l = true)
    (hx : l.any (sameAttendanceKey x.student_id x.date) = false) :
    uniqueKeys (l ++ [x]) = true := by
  induction l with
  | nil => simp [uniqueKeys]
  | cons y ys ih =>
    simp only [uniqueKeys, Bool.and_eq_true, Bool.not_eq_true'] at h
    simp only [List.any_cons, Bool.or_eq_false_iff] at hx
    simp only [List.cons_append, uniqueKeys, Bool.and_eq_true, Bool.not_eq_true']
    refine ⟨?_, ih h.2 hx.2⟩
    simp only [List.append_eq, List.any_append]
    simp only [h.1, List.any_cons, List.any_nil, Bool.false_or, Bool.or_false]
    simp only [sameAttendanceKey] at hx ⊢
    rcases Bool.and_eq_false_iff.mp hx.1 with h1 | h1
    · apply Bool.and_eq_false_iff.mpr
      left
      rw [beq_eq_false_iff_ne] at h1 ⊢
      exact h1.symm
    · apply Bool.and_eq_false_iff.mpr
      right
      rw [beq_eq_false_iff_ne] at h1 ⊢
      exact h1.symm

theorem mark_attendance_insert (db : DB) (sidStr d st : String) (n : Option String)
    (now : Nat) (sid : String)
    (hp : parseObjectId sidStr = some sid)
    (hs : (db.students.find? (fun s => s.oid == sid)).isSome = true)
    (hnone : db.attendance.any (sameAttendanceKey sid d) = false) :
    mark_attendance db sidStr d st n now =
      (.ok (), { db with attendance := db.attendance ++ [⟨sid, d, st, n, now, now⟩] }) := by
  obtain ⟨s, hs'⟩ := Option.isSome_iff_exists.mp hs
  simp [mark_attendance, hp, hs', hnone]

theorem mark_attendance_update (db : DB) (sidStr d st : String) (n : Option String)
    (now : Nat) (sid : String)
    (hp : parseObjectId sidStr = some sid)
    (hs : (db.students.find? (fun s => s.oid == sid)).isSome = true)
    (hsome : db.attendance.any (sameAttendanceKey sid d) = true) :
    mark_attendance db sidStr d st n now =
      (.ok (), { db with attendance := (updateFirst (sameAttendanceKey sid d)
        (fun a => { a with status := st, note := n, updated_at := now })
        db.attendance) }) := by
  obtain ⟨s, hs'⟩ := Option.isSome_iff_exists.mp hs
  simp [mark_attendance, hp, hs', hsome]

theorem accept_admission_ok (db : DB) (aid : String) (now : Nat) (sid oid : String)
    (adm : AdmissionDoc)
    (hp : parseObjectId aid = some oid)
    (hf : db.admissions.find? (fun a => a.oid == oid) = some adm) :
    accept_admission db aid now sid =
      (.ok sid,
       { db with
         students := db.students ++
           [⟨sid, adm.full_name, adm.email, adm.program, none, 1, true, now, now⟩],
         admissions := updateFirst (fun a => a.oid == oid)
           (fun a => { a with status := "accepted", updated_at := now })
           db.admissions }) := by
  simp [accept_admission, hp, hf]

/-! Claim theorems. -/

/-- C1: for every admission id that parses as a store id and resolves to a
stored Admission, accept succeeds, appends exactly one new Student whose
full_name, email and program equal the Admission's, with roll_no unset,
year 1 and is_active true, rewrites that Admission to status accepted with
updated_at refreshed to the call time, leaves the attendance and admin-user
collections unchanged, and returns the new Student's identifier. -/
theorem C1_accept_creates_student (db : DB) (aid : String) (now : Nat) (sid oid : String)
    (adm : AdmissionDoc)
    (hp : parseObjectId aid = some oid)
    (hf : db.admissions.find? (fun a => a.oid == oid) = some adm) :
    ∃ db' : DB,
      accept_admission db aid now sid = (.ok sid, db') ∧
      db'.students = db.students ++
        [⟨sid, adm.full_name, adm.email, adm.program, none, 1, true, now, now⟩] ∧
      db'.admissions.find? (fun a => a.oid == oid) =
        some { adm with status := "accepted", updated_at := now } ∧
      db'.admissions.length = db.admissions.length ∧
      db'.attendance = db.attendance ∧ db'.adminusers = db.adminusers := by
  refine ⟨_, accept_admission_ok db aid now sid oid adm hp hf, rfl, ?_, ?_, rfl, rfl⟩
  · exact find?_updateFirst _ _ _ _ hf (by simpa using List.find?_some hf)
  · exact length_updateFirst _ _ _

/-- C1 witness: the theorem evaluated on a store holding one pending
admission. -/
theorem C1_witness :
    ∃ db' : DB,
      accept_admission dbAdmW "aaaaaaaaaaaaaaaaaaaaaaaa" 7 "bbbbbbbbbbbbbbbbbbbbbbbb" =
        (.ok "bbbbbbbbbbbbbbbbbbbbbbbb", db') ∧
      db'.students = dbAdmW.students ++
        [⟨"bbbbbbbbbbbbbbbbbbbbbbbb", admW.full_name, admW.email, admW.program,
          none, 1, true, 7, 7⟩] ∧
      db'.admissions.find? (fun a => a.oid == "aaaaaaaaaaaaaaaaaaaaaaaa") =
        some { admW with status := "accepted", updated_at := 7 } ∧
      db'.admissions.length = dbAdmW.admissions.length ∧
      db'.attendance = dbAdmW.attendance ∧ db'.adminusers = dbAdmW.adminusers :=
  C1_accept_creates_student dbAdmW "aaaaaaaaaaaaaaaaaaaaaaaa" 7 "bbbbbbbbbbbbbbbbbbbbbbbb"
    "aaaaaaaaaaaaaaaaaaaaaaaa" admW (by decide) (by decide)

/-- C5: accept is not guarded against repetition: a second accept on the same
admission id succeeds again and appends a second Student copied from the same
Admission's full_name, email and program. -/
theorem C5_accept_not_idempotent (db : DB) (aid : String) (t1 t2 : Nat)
    (sid1 sid2 oid : String) (adm : AdmissionDoc)
    (hp : parseObjectId aid = some oid)
    (hf : db.admissions.find? (fun a => a.oid == oid) = some adm) :
    ∃ db1 db2 : DB,
      accept_admission db aid t1 sid1 = (.ok sid1, db1) ∧
      accept_admission db1 aid t2 sid2 = (.ok sid2, db2) ∧
      db2.students = db.students ++
        [⟨sid1, adm.full_name, adm.email, adm.program, none, 1, true, t1, t1⟩,
         ⟨sid2, adm.full_name, adm.email, adm.program, none, 1, true, t2, t2⟩] := by
  have e1 := accept_admission_ok db aid t1 sid1 oid adm hp hf
  have hf1 : (updateFirst (fun a => a.oid == oid)
      (fun a => { a with status := "accepted", updated_at := t1 })
      db.admissions).find? (fun a => a.oid == oid) =
      some { adm with status := "accepted", updated_at := t1 } :=
    find?_updateFirst _ _ _ _ hf (by simpa using List.find?_some hf)
  have e2 := accept_admission_ok
    ⟨updateFirst (fun a => a.oid == oid)
        (fun a => { a with status := "accepted", updated_at := t1 }) db.admissions,
     db.students ++ [⟨sid1, adm.full_name, adm.email, adm.program, none, 1, true, t1, t1⟩],
     db.attendance, db.adminusers⟩
    aid t2 sid2 oid { adm with status := "accepted", updated_at := t1 } hp hf1
  refine ⟨_, _, e1, e2, ?_⟩
  simp

/-- C5 witness: two consecutive accepts on the same stored admission. -/
theorem C5_witness :
    ∃ db1 db2 : DB,
      accept_admission dbAdmW "aaaaaaaaaaaaaaaaaaaaaaaa" 7 "bbbbbbbbbbbbbbbbbbbbbbbb" =
        (.ok "bbbbbbbbbbbbbbbbbbbbbbbb", db1) ∧
      accept_admission db1 "aaaaaaaaaaaaaaaaaaaaaaaa" 9 "eeeeeeeeeeeeeeeeeeeeeeee" =
        (.ok "eeeeeeeeeeeeeeeeeeeeeeee", db2) ∧
      db2.students = dbAdmW.students ++
        [⟨"bbbbbbbbbbbbbbbbbbbbbbbb", admW.full_name, admW.email, admW.program,
          none, 1, true, 7, 7⟩,
         ⟨"eeeeeeeeeeeeeeeeeeeeeeee", admW.full_name, admW.email, admW.program,
          none, 1, true, 9, 9⟩] :=
  C5_accept_not_idempotent dbAdmW "aaaaaaaaaaaaaaaaaaaaaaaa" 7 9 "bbbbbbbbbbbbbbbbbbbbbbbb"
    "eeeeeeeeeeeeeeeeeeeeeeee" "aaaaaaaaaaaaaaaaaaaaaaaa" admW (by decide) (by decide)

/-- C6: accept with an identifier that does not parse as a store id fails with
the 400 invalid-identifier error and returns the store unchanged, and accept
with a parsing identifier that resolves to no Admission fails with the 404
not-found error and returns the store unchanged; in both cases no Student is
created and no Admission is modified. -/
theorem C6_accept_error_cases (db : DB) (aid : String) (now : Nat) (sid : String) :
    (parseObjectId aid = none →
      accept_admission db aid now sid = (.error ⟨400, "Invalid admission id"⟩, db)) ∧
    (∀ oid, parseObjectId aid = some oid →
      db.admissions.find? (fun a => a.oid == oid) = none →
      accept_admission db aid now sid = (.error ⟨404, "Admission not found"⟩, db)) := by
  constructor
  · intro h
    simp [accept_admission, h]
  · intro oid h1 h2
    simp [accept_admission, h1, h2]

/-- C6 witness: a malformed id and an unknown well-formed id, both leaving the
store exactly as it was. -/
theorem C6_witness :
    accept_admission dbStuW "not-a-valid-object-id" 0 "s" =
      (.error ⟨400, "Invalid admission id"⟩, dbStuW) ∧
    accept_admission dbStuW "ffffffffffffffffffffffff" 0 "s" =
      (.error ⟨404, "Admission not found"⟩, dbStuW) :=
  ⟨(C6_accept_error_cases dbStuW "not-a-valid-object-id" 0 "s").1 (by decide),
   (C6_accept_error_cases dbStuW "ffffffffffffffffffffffff" 0 "s").2
     "ffffffffffffffffffffffff" (by decide) (by decide)⟩

/-- C2: starting from a store with no attendance for the pair, recording
present twice and then absent for the same student and date leaves exactly
one attendance document for that pair, with status absent, note equal to the
last call's note, created_at the first call's time and updated_at the last
call's time. -/
theorem C2_attendance_converges (db0 : DB) (sidStr d : String)
    (n1 n2 n3 : Option String) (t1 t2 t3 : Nat) (sid : String)
    (hp : parseObjectId sidStr = some sid)
    (hs : (db0.students.find? (fun s => s.oid == sid)).isSome = true)
    (hnone : db0.attendance.any (sameAttendanceKey sid d) = false) :
    ∃ db1 db2 db3 : DB,
      mark_attendance db0 sidStr d "present" n1 t1 = (.ok (), db1) ∧
      mark_attendance db1 sidStr d "present" n2 t2 = (.ok (), db2) ∧
      mark_attendance db2 sidStr d "absent" n3 t3 = (.ok (), db3) ∧
      db3.attendance.filter (sameAttendanceKey sid d) = [⟨sid, d, "absent", n3, t1, t3⟩] := by
  have e1 := mark_attendance_insert db0 sidStr d "present" n1 t1 sid hp hs hnone
  have hk1 : sameAttendanceKey sid d ⟨sid, d, "present", n1, t1, t1⟩ = true :=
    sameAttendanceKey_mk sid d "present" n1 t1 t1
  have hany1 : (db0.attendance ++ [(⟨sid, d, "present", n1, t1, t1⟩ : AttendanceDoc)]).any
      (sameAttendanceKey sid d) = true := by
    rw [List.any_append]
    simp [hnone, hk1]
  have e2 := mark_attendance_update
    ⟨db0.admissions, db0.students,
     db0.attendance ++ [⟨sid, d, "present", n1, t1, t1⟩], db0.adminusers⟩
    sidStr d "present" n2 t2 sid hp hs hany1
  have hu2 : updateFirst (sameAttendanceKey sid d)
      (fun a => { a with status := "present", note := n2, updated_at := t2 })
      (db0.attendance ++ [⟨sid, d, "present", n1, t1, t1⟩]) =
      db0.attendance ++ [⟨sid, d, "present", n2, t1, t2⟩] := by
    rw [updateFirst_append_singleton _ _ _ _ hnone hk1]
  rw [hu2] at e2
  have hk2 : sameAttendanceKey sid d ⟨sid, d, "present", n2, t1, t2⟩ = true :=
    sameAttendanceKey_mk sid d "present" n2 t1 t2
  have hany2 : (db0.attendance ++ [(⟨sid, d, "present", n2, t1, t2⟩ : AttendanceDoc)]).any
      (sameAttendanceKey sid d) = true := by
    rw [List.any_append]
    simp [hnone, hk2]
  have e3 := mark_attendance_update
    ⟨db0.admissions, db0.students,
     db0.attendance ++ [⟨sid, d, "present", n2, t1, t2⟩], db0.adminusers⟩
    sidStr d "absent" n3 t3 sid hp hs hany2
  have hu3 : updateFirst (sameAttendanceKey sid d)
      (fun a => { a with status := "absent", note := n3, updated_at := t3 })
      (db0.attendance ++ [⟨sid, d, "present", n2, t1, t2⟩]) =
      db0.attendance ++ [⟨sid, d, "absent", n3, t1, t3⟩] := by
    rw [updateFirst_append_singleton _ _ _ _ hnone hk2]
  rw [hu3] at e3
  refine ⟨_, _, _, e1, e2, e3, ?_⟩
  rw [List.filter_append, filter_nil_of_no_match _ _ hnone]
  simp [sameAttendanceKey_mk]

/-- C2 witness: the three calls evaluated on a store holding one student and
no attendance documents. -/
theorem C2_witness :
    ∃ db1 db2 db3 : DB,
      mark_attendance dbStuW "cccccccccccccccccccccccc" "2024-03-01" "present" none 1 =
        (.ok (), db1) ∧
      mark_attendance db1 "cccccccccccccccccccccccc" "2024-03-01" "present" none 2 =
        (.ok (), db2) ∧
      mark_attendance db2 "cccccccccccccccccccccccc" "2024-03-01" "absent" (some "sick") 3 =
        (.ok (), db3) ∧
      db3.attendance.filter (sameAttendanceKey "cccccccccccccccccccccccc" "2024-03-01") =
        [⟨"cccccccccccccccccccccccc", "2024-03-01", "absent", some "sick", 1, 3⟩] :=
  C2_attendance_converges dbStuW "cccccccccccccccccccccccc" "2024-03-01" none none
    (some "sick") 1 2 3 "cccccccccccccccccccccccc" (by decide) (by decide) (by decide)

/-- Single-step preservation of the attendance uniqueness invariant. -/
theorem uniqueKeys_mark (db : DB) (sidStr d st : String) (n : Option String) (now : Nat)
    (h : uniqueKeys db.attendance = true) :
    uniqueKeys (mark_attendance db sidStr d st n now).2.attendance = true := by
  rcases hhp : parseObjectId sidStr with _ | sid
  · simp only [mark_attendance, hhp]
    exact h
  · rcases hhf : db.students.find? (fun s => s.oid == sid) with _ | s
    · simp only [mark_attendance, hhp, hhf]
      exact h
    · rcases hany : db.attendance.any (sameAttendanceKey sid d) with _ | _
      · simp only [mark_attendance, hhp, hhf, hany, Bool.false_eq_true, if_false]
        exact uniqueKeys_append_singleton db.attendance ⟨sid, d, st, n, now, now⟩ h hany
      · simp only [mark_attendance, hhp, hhf, hany, if_true]
        exact uniqueKeys_updateFirst (sameAttendanceKey sid d)
          (fun a => { a with status := st, note := n, updated_at := now })
          (fun a => ⟨rfl, rfl⟩) db.attendance h

/-- C3: the record operation is an upsert keyed on the (student_id, date)
composite, so any sequence of record operations run from a store satisfying
the at-most-one-document-per-pair invariant ends in a store satisfying it. -/
theorem C3_attendance_unique_invariant (db : DB) (ops : List MarkOp)
    (h : uniqueKeys db.attendance = true) :
    uniqueKeys (runMarks db ops).attendance = true := by
  induction ops generalizing db with
  | nil => exact h
  | cons op ops ih =>
    exact ih _ (uniqueKeys_mark db op.student_id op.date op.status op.note op.now h)

/-- C3 witness: a sequence of record operations, including repeats of the same
pair, an unknown student and a malformed id, run from a store with one
student and an empty attendance collection. -/
theorem C3_witness :
    uniqueKeys (runMarks dbStuW
      [⟨"cccccccccccccccccccccccc", "2024-03-01", "present", none, 1⟩,
       ⟨"cccccccccccccccccccccccc", "2024-03-01", "absent", some "sick", 2⟩,
       ⟨"cccccccccccccccccccccccc", "2024-03-02", "late", none, 3⟩,
       ⟨"ffffffffffffffffffffffff", "2024-03-02", "present", none, 4⟩,
       ⟨"bad-id", "2024-03-02", "present", none, 5⟩]).attendance = true :=
  C3_attendance_unique_invariant dbStuW
    [⟨"cccccccccccccccccccccccc", "2024-03-01", "present", none, 1⟩,
     ⟨"cccccccccccccccccccccccc", "2024-03-01", "absent", some "sick", 2⟩,
     ⟨"cccccccccccccccccccccccc", "2024-03-02", "late", none, 3⟩,
     ⟨"ffffffffffffffffffffffff", "2024-03-02", "present", none, 4⟩,
     ⟨"bad-id", "2024-03-02", "present", none, 5⟩] (by decide)

/-- C9: the request model of the attendance endpoint does not validate the
status field, so a status outside the set allowed by the Attendance schema of
schemas.py is accepted and stored verbatim: recording status flying for an
existing student succeeds and persists a document whose status fails the
schema's enumerated-value constraint. -/
theorem C9_attendance_status_not_validated :
    attendanceStatusValid "flying" = false ∧
    mark_attendance dbStuW "cccccccccccccccccccccccc" "2024-03-01" "flying" none 5 =
      (.ok (), ⟨[], [studentW],
        [⟨"cccccccccccccccccccccccc", "2024-03-01", "flying", none, 5, 5⟩], []⟩) := by
  constructor
  · decide
  · decide

/-- Any login input with no stored active admin matching both credentials
produces the one undifferentiated 401 failure. -/
theorem login_fail (db : DB) (email password : String)
    (h : ¬ ∃ u, u ∈ db.adminusers ∧ u.email = email ∧ u.password = password ∧
      u.is_active = true) :
    login db email password = .error ⟨401, "Invalid credentials"⟩ := by
  have hf : db.adminusers.find? (adminMatch email password) = none := by
    rw [List.find?_eq_none]
    intro u hu hmatch
    apply h
    simp only [adminMatch, Bool.and_eq_true, beq_iff_eq] at hmatch
    exact ⟨u, hu, hmatch.1.1, hmatch.1.2, hmatch.2⟩
  simp [login, hf]

/-- C7: login succeeds exactly when a stored admin user matches both
credentials exactly and is active: whenever such a user exists, login returns
ok with a matching user's id, name, email and role, and every ok result comes
from such a user; every other input yields the single constant 401 outcome,
so two failing runs, whatever check failed, are observationally identical. -/
theorem C7_login_spec (db : DB) (email password : String) :
    ((∃ u, u ∈ db.adminusers ∧ u.email = email ∧ u.password = password ∧
        u.is_active = true) →
      ∃ u, u ∈ db.adminusers ∧ u.email = email ∧ u.password = password ∧
        u.is_active = true ∧
        login db email password = .ok ⟨u.oid, u.name, u.email, u.role⟩) ∧
    (∀ r, login db email password = .ok r →
      ∃ u, u ∈ db.adminusers ∧ u.email = email ∧ u.password = password ∧
        u.is_active = true ∧ r = ⟨u.oid, u.name, u.email, u.role⟩) ∧
    ((¬ ∃ u, u ∈ db.adminusers ∧ u.email = email ∧ u.password = password ∧
        u.is_active = true) →
      login db email password = .error ⟨401, "Invalid credentials"⟩) ∧
    (∀ (db2 : DB) (email2 password2 : String),
      (¬ ∃ u, u ∈ db.adminusers ∧ u.email = email ∧ u.password = password ∧
        u.is_active = true) →
      (¬ ∃ u, u ∈ db2.adminusers ∧ u.email = email2 ∧ u.password = password2 ∧
        u.is_active = true) →
      login db email password = login db2 email2 password2) := by
  refine ⟨?_, ?_, login_fail db email password, ?_⟩
  · rintro ⟨u0, hu0, he, hpw, hact⟩
    rcases hf : db.adminusers.find? (adminMatch email password) with _ | u
    · exfalso
      apply List.find?_eq_none.mp hf u0 hu0
      simp only [adminMatch, Bool.and_eq_true, beq_iff_eq]
      exact ⟨⟨he, hpw⟩, hact⟩
    · have hm := List.find?_some hf
      have hmem := List.mem_of_find?_eq_some hf
      simp only [adminMatch, Bool.and_eq_true, beq_iff_eq] at hm
      exact ⟨u, hmem, hm.1.1, hm.1.2, hm.2, by simp [login, hf]⟩
  · intro r hr
    rcases hf : db.adminusers.find? (adminMatch email password) with _ | u
    · simp only [login, hf] at hr
      exact Except.noConfusion hr
    · have hm := List.find?_some hf
      have hmem := List.mem_of_find?_eq_some hf
      simp only [adminMatch, Bool.and_eq_true, beq_iff_eq] at hm
      simp only [login, hf, Except.ok.injEq] at hr
      exact ⟨u, hmem, hm.1.1, hm.1.2, hm.2, hr.symm⟩
  · intro db2 email2 password2 h1 h2
    rw [login_fail db email password h1, login_fail db2 email2 password2 h2]

/-- C7 witness: correct credentials for the seeded active admin succeed and
return that user's summary; a wrong password against the same store fails
with the 401 outcome, identical to the one produced by correct credentials
for an inactive matching user in another store. -/
theorem C7_witness :
    (∃ u, u ∈ dbAuthW.adminusers ∧ u.email = "admin@college.edu" ∧
      u.password = "admin123" ∧ u.is_active = true ∧
      login dbAuthW "admin@college.edu" "admin123" = .ok ⟨u.oid, u.name, u.email, u.role⟩) ∧
    login dbAuthW "admin@college.edu" "wrong" = .error ⟨401, "Invalid credentials"⟩ ∧
    login dbAuthW "admin@college.edu" "wrong" =
      login dbAuthInactiveW "admin@college.edu" "admin123" :=
  ⟨(C7_login_spec dbAuthW "admin@college.edu" "admin123").1 (by decide),
   (C7_login_spec dbAuthW "admin@college.edu" "wrong").2.2.1 (by decide),
   (C7_login_spec dbAuthW "admin@college.edu" "wrong").2.2.2 dbAuthInactiveW
     "admin@college.edu" "admin123" (by decide) (by decide)⟩

/-- C4 counterexample: a structurally valid application whose caller-supplied
status is rejected is persisted with status rejected, not pending, refuting
the claim that submit stores status pending regardless of the input. -/
theorem C4_submit_status_counterexample :
    rejectedInput.validStatus = true ∧
    (submit_admission ⟨[], [], [], []⟩ rejectedInput 0 "id0" none).1 = .ok "id0" ∧
    ¬ (∀ a ∈ (submit_admission ⟨[], [], [], []⟩ rejectedInput 0 "id0" none).2.admissions,
        a.status = "pending") := by
  refine ⟨by decide, by decide, by decide⟩

/-- C4 amended: for every valid AdmissionInput, submit with a working store
persists exactly one new Admission copying every input field verbatim,
including the caller-supplied status, whose pydantic default is pending only
when the caller omits the field, and returns the generated identifier with
no other side effect. -/
theorem C4_submit_persists_input_status (db : DB) (a : AdmissionInput) (now : Nat)
    (newId : String) (_hv : a.validStatus = true) :
    submit_admission db a now newId none =
      (.ok newId,
       { db with admissions := (db.admissions ++
           [⟨newId, a.full_name, a.email, a.phone, a.address, a.program, a.dob,
             a.previous_education, a.status, now, now⟩]) }) := rfl

/-- C4 witness: the amended theorem evaluated on a pending application and an
empty store. -/
theorem C4_witness :
    submit_admission ⟨[], [], [], []⟩ pendingInput 3 "id1" none =
      (.ok "id1",
       ⟨[⟨"id1", "John Roe", "john@example.com", "555-0101", "2 Main St", "Psychology",
          "1999-05-05", none, "pending", 3, 3⟩], [], [], []⟩) :=
  C4_submit_persists_input_status ⟨[], [], [], []⟩ pendingInput 3 "id1" (by decide)

set_option maxRecDepth 4000 in
/-- C8 counterexample: a store-layer failure whose exception text is longer
than the 80-character diagnostic truncation is surfaced as a 503 whose detail
is that raw text itself, so no truncation or sanitization happens. -/
theorem C8_raw_error_counterexample :
    (submit_admission ⟨[], [], [], []⟩ pendingInput 0 "id0" (some rawStoreError)).1 =
      .error ⟨503, rawStoreError⟩ ∧
    80 < rawStoreError.length :=
  ⟨rfl, by decide⟩

/-- C8 amended: every store-layer failure in submit, list and attendance
query is surfaced as a 503 whose detail is the raw exception text verbatim,
with the store left unchanged. -/
theorem C8_store_error_verbatim (db : DB) (a : AdmissionInput) (now : Nat) (newId : String)
    (e : String) (st s1 s2 : Option String) :
    submit_admission db a now newId (some e) = (.error ⟨503, e⟩, db) ∧
    list_admissions db st (some e) = .error ⟨503, e⟩ ∧
    get_attendance db s1 s2 (some e) = .error ⟨503, e⟩ :=
  ⟨rfl, rfl, rfl⟩

/-- C10: an empty-string filter parameter is treated like an absent one:
listing admissions with an empty status returns the whole collection, and the
attendance query with an empty student_id or on_date drops exactly that
clause. -/
theorem C10_empty_string_filter_ignored (db : DB) (d s : String) :
    list_admissions db (some "") none = .ok db.admissions ∧
    list_admissions db (some "") none = list_admissions db none none ∧
    get_attendance db (some "") (some "") none = .ok db.attendance ∧
    get_attendance db (some "") (some d) none = get_attendance db none (some d) none ∧
    get_attendance db (some s) (some "") none = get_attendance db (some s) none none := by
  refine ⟨?_, rfl, ?_, rfl, rfl⟩
  · simp [list_admissions, get_documents, List.filter_true]
  · simp [get_attendance, get_documents, optTruthy, List.filter_true]

end CollegeApi
